import Mathlib

/-!
Verification of the company domain of the `test-clean` repository
(Clean-Architecture CRUD service for a `Company` resource with domain
events and an event bus).

The Python source is shallowly embedded:
* `uuid.UUID` values are modelled by their canonical string form
  (`str` / `UUID(...)` between a `UUID` and its canonical string is a
  bijection, modelled as the identity), `datetime` values by `Nat`.
* Fresh values produced inside the code (`uuid4()`, `uuid4().hex`,
  `datetime.utcnow()`, `datetime.now(tz=timezone.utc)`) become explicit
  parameters of the embedded functions, one per call site.
* A raised exception becomes an `Except.error` carrying the message; for
  methods that mutate an object in place the embedding returns the pair
  of the optional raised message and the state of the object when the
  call ends, so that partial mutation before a raise stays observable.
* Python truthiness is translated at its concrete type: `None` and the
  empty string are falsy; `uuid.UUID`, `datetime` and dataclass
  instances are always truthy.
-/

/-- A `uuid.UUID`, modelled by its canonical string representation. -/
abbrev PyUUID := String

/-- A `datetime.datetime` instant, modelled as an abstract tick count. -/
abbrev PyDateTime := Nat

/-- Python `str.strip()` with no arguments: the string with leading and
trailing whitespace removed.  (Structurally recursive so that concrete
instances compute inside the kernel.) -/
def pyStrip (s : String) : String :=
  ⟨((s.data.dropWhile Char.isWhitespace).reverse.dropWhile Char.isWhitespace).reverse⟩

/-- The zero UUID `UUID("00000000-0000-0000-0000-000000000000")` used as the
default `country_id` in `CompanyAggregate.__init__`. -/
def zeroUUID : PyUUID := "00000000-0000-0000-0000-000000000000"

/-- The value stored in a `BaseEvent`'s `event_name` slot.  The parameter is
typed `str` in Python, but nothing enforces that at runtime: the
`CompanyUpdated` constructor passes its `occurred_at` datetime positionally
into this slot, so the slot must also be able to hold a datetime or `None`. -/
inductive EventNameVal where
  | str (s : String)
  | dt (t : PyDateTime)
  | pyNone
deriving DecidableEq, Repr

/-- Data stored by `BaseDomainEvent.__init__` (via `events_bus.core.BaseEvent`):
`event_name`, `event_id`, `occurred_on`. -/
structure BaseDomainEventData where
  event_name : EventNameVal
  event_id : String
  occurred_on : PyDateTime
deriving DecidableEq, Repr

/-- `BaseDomainEvent.__init__`: `event_id or uuid4().hex` and
`occurred_on or datetime.now(tz=timezone.utc)`.  `genId` and `genNow` are the
fresh values those two calls would produce.  Note Python `or`: an empty
`event_id` string is falsy and is replaced by the generated id; a datetime is
always truthy. -/
def BaseDomainEvent_init (event_name : EventNameVal) (event_id : Option String)
    (occurred_on : Option PyDateTime) (genId : String) (genNow : PyDateTime) :
    BaseDomainEventData :=
  { event_name := event_name
    event_id :=
      match event_id with
      | some s => if s = "" then genId else s
      | none => genId
    occurred_on := occurred_on.getD genNow }

/-- `CompanyCreated.EVENT_NAME` (`app/domain/events/company_created.py`). -/
def companyCreatedEventName : String := "testclean.api.1.event.company.created"

/-- A domain event object held in `CompanyAggregate._events`: either a
`CompanyCreated` or a `CompanyUpdated` instance, each with its
`BaseDomainEvent` data and payload attributes. -/
inductive DomainEvent where
  | created (base : BaseDomainEventData) (company_id : PyUUID)
      (company_name : String) (country_id : PyUUID)
  | updated (base : BaseDomainEventData) (company_id : Option PyUUID)
      (company_name : String) (country_id : PyUUID)
deriving DecidableEq, Repr

/-- `CompanyCreated.__init__` (`app/domain/events/company_created.py`):
passes `event_name=self.EVENT_NAME, event_id=event_id, occurred_on=occurred_at`
to the base constructor, then stores the payload attributes. -/
def CompanyCreated_init (company_id : PyUUID) (company_name : String)
    (country_id : PyUUID) (event_id : Option String)
    (occurred_at : Option PyDateTime) (genId : String) (genNow : PyDateTime) :
    DomainEvent :=
  .created
    (BaseDomainEvent_init (.str companyCreatedEventName) event_id occurred_at
      genId genNow)
    company_id company_name country_id

/-- `CompanyUpdated.__init__` (`app/domain/events/company_updated.py`): the
source calls `super().__init__(occurred_at)`, so `occurred_at` is bound
POSITIONALLY to the base constructor's first parameter `event_name`, while
`event_id` and `occurred_on` are left to their `None` defaults and are
generated. -/
def CompanyUpdated_init (company_id : Option PyUUID) (company_name : String)
    (country_id : PyUUID) (occurred_at : Option PyDateTime) (genId : String)
    (genNow : PyDateTime) : DomainEvent :=
  .updated
    (BaseDomainEvent_init
      (match occurred_at with
       | some t => .dt t
       | none => .pyNone)
      none none genId genNow)
    company_id company_name country_id

/-- The `Company` entity (`app/domain/entities/company.py`). -/
structure Company where
  company_id : Option PyUUID
  company_name : String
  country_id : PyUUID
  created_at : PyDateTime
  updated_at : Option PyDateTime
deriving DecidableEq, Repr

namespace Company

/-- `Company._validate`: name non-empty, not whitespace-only, at most 255
characters.  Returns the raised message, if any. -/
def validate (company_name : String) : Option String :=
  if company_name = "" ∨ (pyStrip company_name).length = 0 then
    some "Company name cannot be empty"
  else if company_name.length > 255 then
    some "Company name cannot exceed 255 characters"
  else
    none

/-- `Company.__init__`: assigns the fields (`created_at or datetime.utcnow()`,
with `genNow` the value `utcnow()` would produce), then runs `_validate`,
which can raise. -/
def init (company_id : Option PyUUID) (company_name : String)
    (country_id : PyUUID) (created_at : Option PyDateTime)
    (updated_at : Option PyDateTime) (genNow : PyDateTime) :
    Except String Company :=
  match validate company_name with
  | some msg => .error msg
  | none =>
    .ok
      { company_id := company_id
        company_name := company_name
        country_id := country_id
        created_at := created_at.getD genNow
        updated_at := updated_at }

/-- `Company.update_name`: validates the new name first and only then assigns
it and stamps `updated_at = datetime.utcnow()` (value `genNow`), so a raise
leaves the entity unchanged. -/
def update_name (c : Company) (new_name : String) (genNow : PyDateTime) :
    Except String Company :=
  if new_name = "" ∨ (pyStrip new_name).length = 0 then
    .error "Company name cannot be empty"
  else if new_name.length > 255 then
    .error "Company name cannot exceed 255 characters"
  else
    .ok { c with company_name := new_name, updated_at := some genNow }

/-- `Company.update_country`: `if not new_country_id` — a `uuid.UUID` instance
is always truthy, which in the string model means only the (never canonical)
empty string is rejected; then assigns and stamps `updated_at`. -/
def update_country (c : Company) (new_country_id : PyUUID)
    (genNow : PyDateTime) : Except String Company :=
  if new_country_id = "" then
    .error "Country ID cannot be empty"
  else
    .ok { c with country_id := new_country_id, updated_at := some genNow }

end Company

/-- `CompanyDetailVO` (`app/domain/value_objects/company_detail_vo.py`), a
frozen dataclass.  Its `__post_init__` validation concerns construction of the
value object and is not needed by the aggregate-level claims, which quantify
over already-constructed details. -/
structure CompanyDetailVO where
  identification_type_id : PyUUID
  identity_number : String
  address : Option String := none
  number_indicative : Option String := none
  phone_number : Option String := none
  email : Option String := none
  city_id : Option PyUUID := none
  active : Bool := true
  person_type : Option String := none
  status : Option String := none
  verified : Bool := false
deriving DecidableEq, Repr

/-- `CompanyType` entity (`app/domain/entities/company_type.py`): id and name
are all the aggregate operations use. -/
structure CompanyType where
  company_types_id : PyUUID
  type_name : String
deriving DecidableEq, Repr

/-- The `CompanyAggregate` root (`app/domain/aggregates/company_aggregate.py`):
a `Company` entity plus `_details`, `_company_types` and `_events`. -/
structure CompanyAggregate where
  company : Company
  details : List CompanyDetailVO
  company_types : List CompanyType
  events : List DomainEvent
deriving DecidableEq, Repr

namespace CompanyAggregate

/-- `CompanyAggregate.__init__`: builds the inner `Company` with
`country_id or UUID("00000000-...")` (Python `or` on `Optional[UUID]`: only
`None` is falsy) and empty default collections; `Company.__init__` may
raise. -/
def init (company_id : Option PyUUID) (company_name : String)
    (country_id : Option PyUUID) (created_at : Option PyDateTime)
    (updated_at : Option PyDateTime) (details : Option (List CompanyDetailVO))
    (company_types : Option (List CompanyType)) (genNow : PyDateTime) :
    Except String CompanyAggregate :=
  match Company.init company_id company_name (country_id.getD zeroUUID)
      created_at updated_at genNow with
  | .error msg => .error msg
  | .ok c =>
    .ok
      { company := c
        details := details.getD []
        company_types := company_types.getD []
        events := [] }

/-- `CompanyAggregate.create`: validates the name and the presence of the
country id, builds the aggregate with a fresh id (`genCompanyId` is the
`uuid4()` value, `genNow` the `datetime.utcnow()` value), and appends one
`CompanyCreated` event (`genEventId` is the `uuid4().hex` consumed by the
event's base constructor; the base's own `datetime.now` is not consumed
because `occurred_at` is provided). -/
def create (genCompanyId : PyUUID) (genNow : PyDateTime) (genEventId : String)
    (company_name : String) (country_id : Option PyUUID) :
    Except String CompanyAggregate :=
  if company_name = "" ∨ (pyStrip company_name).length = 0 then
    .error "Company name is required"
  else
    match country_id with
    | none => .error "Country ID is required"
    | some cid =>
      match init (some genCompanyId) company_name (some cid) (some genNow)
          (some genNow) none none genNow with
      | .error msg => .error msg
      | .ok aggregate =>
        .ok
          { aggregate with
            events :=
              aggregate.events ++
                [CompanyCreated_init genCompanyId company_name cid none
                  (some genNow) genEventId genNow] }

/-- `CompanyAggregate.update`: applies the name change (if provided and
different), then the country change (if provided and different), and if
anything changed appends one `CompanyUpdated` event.  The result pairs the
raised message (if any) with the state of the aggregate when the call ends;
`n1`/`n2` are the `utcnow()` values of `update_name`/`update_country`, `n3`
the `utcnow()` passed as the event's `occurred_at`, and `genNow` the
`datetime.now` inside the event's base constructor. -/
def update (agg : CompanyAggregate) (company_name : Option String)
    (country_id : Option PyUUID) (genEventId : String)
    (n1 n2 n3 genNow : PyDateTime) : Option String × CompanyAggregate :=
  let step1 : Except String (CompanyAggregate × Bool) :=
    match company_name with
    | some n =>
      if n ≠ agg.company.company_name then
        match agg.company.update_name n n1 with
        | .error msg => .error msg
        | .ok c => .ok ({ agg with company := c }, true)
      else .ok (agg, false)
    | none => .ok (agg, false)
  match step1 with
  | .error msg => (some msg, agg)
  | .ok (agg1, upd1) =>
    let step2 : Except String (CompanyAggregate × Bool) :=
      match country_id with
      | some cid =>
        if cid ≠ agg1.company.country_id then
          match agg1.company.update_country cid n2 with
          | .error msg => .error msg
          | .ok c => .ok ({ agg1 with company := c }, true)
        else .ok (agg1, upd1)
      | none => .ok (agg1, upd1)
    match step2 with
    | .error msg => (some msg, agg1)
    | .ok (agg2, updated) =>
      if updated then
        (none,
          { agg2 with
            events :=
              agg2.events ++
                [CompanyUpdated_init agg2.company.company_id
                  agg2.company.company_name agg2.company.country_id (some n3)
                  genEventId genNow] })
      else (none, agg2)

/-- `CompanyAggregate.add_detail`: `if not detail` only fires for `None`
(dataclass instances are truthy); then the loop raises on the first detail
with the same `identity_number`, otherwise appends. -/
def add_detail (agg : CompanyAggregate) (detail : Option CompanyDetailVO) :
    Option String × CompanyAggregate :=
  match detail with
  | none => (some "Detail cannot be None", agg)
  | some d =>
    if agg.details.any (fun existing => existing.identity_number = d.identity_number) then
      (some
        ("Detail with identity number " ++ d.identity_number ++ " already exists"),
        agg)
    else
      (none, { agg with details := agg.details ++ [d] })

/-- `CompanyAggregate.remove_detail`: pops the first detail whose
`identity_number` matches and returns `True`, else returns `False`. -/
def remove_detail (agg : CompanyAggregate) (identity_number : String) :
    Bool × CompanyAggregate :=
  if agg.details.any (fun d => d.identity_number = identity_number) then
    (true,
      { agg with
        details := agg.details.eraseP (fun d => d.identity_number = identity_number) })
  else
    (false, agg)

/-- `CompanyAggregate.clear_events`. -/
def clear_events (agg : CompanyAggregate) : CompanyAggregate :=
  { agg with events := [] }

end CompanyAggregate

/-! ### Event serialization (`to_dict` / `from_dict`) -/

/-- A value stored in a Python `dict` produced by `to_dict`: either a string,
or the raw `event_name` slot value. -/
inductive PyVal where
  | s (v : String)
  | name (n : EventNameVal)
deriving DecidableEq, Repr

/-- `datetime.isoformat()`, an injective rendering of the instant. -/
def isoformat (t : PyDateTime) : String := toString t

/-- `str(uuid)`: under the canonical-string model of `uuid.UUID` this is the
identity. -/
def pyStrOfUUID (u : PyUUID) : String := u

/-- `uuid.UUID(s)` on a canonical string: the inverse of `str`, the identity
under the model. -/
def pyUUIDOfStr (s : String) : PyUUID := s

/-- `str(company_id)` where `company_id : Optional[UUID]` — `str(None)` is the
string `"None"` (used by `CompanyUpdated.to_dict`). -/
def pyStrOfOptUUID : Option PyUUID → String
  | some u => pyStrOfUUID u
  | none => "None"

namespace DomainEvent

/-- The `BaseDomainEvent` data of an event instance. -/
def base : DomainEvent → BaseDomainEventData
  | .created b _ _ _ => b
  | .updated b _ _ _ => b

/-- `self.event_name`. -/
def event_name (e : DomainEvent) : EventNameVal := e.base.event_name

/-- `self.event_id`. -/
def event_id (e : DomainEvent) : String := e.base.event_id

/-- `self.occurred_on`. -/
def occurred_on (e : DomainEvent) : PyDateTime := e.base.occurred_on

/-- `to_dict`: `BaseDomainEvent.to_dict` builds
`{event_id, event_name, occurred_on.isoformat()}` and the subclass `update`s
in `company_id`/`company_name`/`country_id` as strings. -/
def to_dict : DomainEvent → List (String × PyVal)
  | .created b cid cname ctryid =>
    [("event_id", .s b.event_id), ("event_name", .name b.event_name),
     ("occurred_on", .s (isoformat b.occurred_on)),
     ("company_id", .s (pyStrOfUUID cid)), ("company_name", .s cname),
     ("country_id", .s (pyStrOfUUID ctryid))]
  | .updated b cid cname ctryid =>
    [("event_id", .s b.event_id), ("event_name", .name b.event_name),
     ("occurred_on", .s (isoformat b.occurred_on)),
     ("company_id", .s (pyStrOfOptUUID cid)), ("company_name", .s cname),
     ("country_id", .s (pyStrOfUUID ctryid))]

end DomainEvent

/-- `CompanyCreated.from_dict`: reads `company_id`, `company_name`,
`country_id` from the attribute dict (a missing key raises `KeyError`, a
non-string where `UUID(...)` expects a string raises) and rebuilds the event
through `CompanyCreated.__init__`, passing `event_id` and `occurred_on`
directly.  `genId`/`genNow` are the base constructor's generators, consumed
only when the provided values are falsy. -/
def CompanyCreated_from_dict (event_id : String) (occurred_on : PyDateTime)
    (attributes : List (String × PyVal)) (genId : String)
    (genNow : PyDateTime) : Except String DomainEvent :=
  match attributes.lookup "company_id", attributes.lookup "company_name",
      attributes.lookup "country_id" with
  | some (.s cid), some (.s cname), some (.s ctryid) =>
    .ok
      (CompanyCreated_init (pyUUIDOfStr cid) cname (pyUUIDOfStr ctryid)
        (some event_id) (some occurred_on) genId genNow)
  | _, _, _ => .error "KeyError"

/-! ### Event bus service (`app/application/services/event_bus.py`)

Handlers are library `AsyncHandler`/`SyncHandler` objects; a handler is
modelled by an id, its kind, and the outcome of its `handle` method on each
event.  The library `EventHandlerRegistry` is, per the spec, a mapping from
event-name to an ordered list of handlers; it is modelled as an association
list keyed by the `event_name` value the service passes to
`get_handlers_by_event`. -/

/-- The runtime kind of a registered handler object, as discriminated by the
`isinstance` checks in `_trigger_handlers`. -/
inductive HandlerKind where
  | async
  | sync
  | unknown
deriving DecidableEq, Repr

/-- A registered handler: identity, kind, and the behaviour of its `handle`
method (which may raise). -/
structure Handler where
  hid : Nat
  kind : HandlerKind
  handle : DomainEvent → Except String Unit

/-- The library `EventHandlerRegistry` contents: event-name, in registration
order, to ordered handler list. -/
abbrev HandlerRegistry := List (EventNameVal × List Handler)

/-- `EventHandlerRegistry.get_handlers_by_event`: the handlers registered for
an event name (none registered gives the empty list). -/
def get_handlers_by_event (reg : HandlerRegistry) (n : EventNameVal) :
    List Handler :=
  (reg.lookup n).getD []

/-- What happened to one handler inside `_trigger_handlers`: it ran and
returned, it raised (the exception is caught and logged), or it was of
unknown kind and only a warning was logged. -/
inductive RunOutcome where
  | ok
  | raised (msg : String)
  | skippedUnknown
deriving DecidableEq, Repr

/-- One iteration of the `_trigger_handlers` loop body: the `isinstance`
dispatch plus the surrounding `try`/`except` that converts a raise into a
logged outcome. -/
def runHandler (h : Handler) (e : DomainEvent) : RunOutcome :=
  match h.kind with
  | .async =>
    match h.handle e with
    | .ok _ => .ok
    | .error msg => .raised msg
  | .sync =>
    match h.handle e with
    | .ok _ => .ok
    | .error msg => .raised msg
  | .unknown => .skippedUnknown

/-- The `for handler in handlers` loop of `_trigger_handlers`: every handler
is processed in order, each under its own `try`/`except`, so the loop always
continues to the next handler. -/
def triggerLoop : List Handler → DomainEvent → List (Nat × RunOutcome)
  | [], _ => []
  | h :: rest, e => (h.hid, runHandler h e) :: triggerLoop rest e

/-- `EventBusService._trigger_handlers`: resolves the handlers for
`event.event_name`, returns early when there are none, then runs the loop. -/
def EventBusService_trigger_handlers (reg : HandlerRegistry) (e : DomainEvent) :
    List (Nat × RunOutcome) :=
  let handlers := get_handlers_by_event reg e.event_name
  if handlers.isEmpty then [] else triggerLoop handlers e

/-- Observable trace of one `EventBusService.publish` call: the events handed
to `self._publisher.publish`, the publisher exception that the outer
`try`/`except` caught (if any), and the per-handler outcomes. -/
structure PublishTrace where
  publisherCalls : List DomainEvent
  publisherError : Option String
  handlerRuns : List (Nat × RunOutcome)
deriving Repr

/-- `EventBusService.publish`: returns at once when
`settings.event_bus_enabled` is off; otherwise calls the publisher and then
triggers the handlers, with the whole body in a `try`/`except` that logs and
does not re-raise (so a publisher exception skips the handlers but still
returns normally). -/
def EventBusService_publish (event_bus_enabled : Bool)
    (publisher : DomainEvent → Except String Unit) (reg : HandlerRegistry)
    (e : DomainEvent) : PublishTrace :=
  if event_bus_enabled = false then
    { publisherCalls := [], publisherError := none, handlerRuns := [] }
  else
    match publisher e with
    | .error msg =>
      { publisherCalls := [e], publisherError := some msg, handlerRuns := [] }
    | .ok _ =>
      { publisherCalls := [e], publisherError := none
        handlerRuns := EventBusService_trigger_handlers reg e }

/-! ### Repository (`app/infrastructure/repositories/postgres_company_repository.py`)

The `company` table is modelled as a list of rows keyed by `company_id`
(primary key, not nullable); `session.merge` + `flush` is an upsert by
primary key and `refresh` re-reads the merged row. -/

/-- A row of the `company` table (`CompanyModel`). -/
structure CompanyModelRow where
  company_id : PyUUID
  company_name : String
  country_id : PyUUID
  created_at : PyDateTime
  updated_at : Option PyDateTime
deriving DecidableEq, Repr

/-- The `company` table contents. -/
abbrev CompanyTable := List CompanyModelRow

/-- `session.merge` + `flush` on a `CompanyModel` row: update the row with
this primary key, or insert it. -/
def mergeRow (db : CompanyTable) (row : CompanyModelRow) : CompanyTable :=
  if db.any (fun r => r.company_id = row.company_id) then
    db.map (fun r => if r.company_id = row.company_id then row else r)
  else
    db ++ [row]

namespace PostgresCompanyRepository

/-- `_model_to_aggregate`: rebuilds a `CompanyAggregate` from a row through
`CompanyAggregate.__init__` — note it passes neither details nor events, so
the result always carries an empty `_events` list.  `genNow` is the
constructor's `utcnow` source (unused here because `created_at` is always
set on a row). -/
def model_to_aggregate (model : CompanyModelRow) (genNow : PyDateTime) :
    Except String CompanyAggregate :=
  CompanyAggregate.init (some model.company_id) model.company_name
    (some model.country_id) (some model.created_at) model.updated_at none none
    genNow

/-- `_aggregate_to_model`: copies the five company columns into a row.  The
primary-key column is `nullable=False`, so an aggregate without an id cannot
be flushed. -/
def aggregate_to_model (aggregate : CompanyAggregate) :
    Except String CompanyModelRow :=
  match aggregate.company.company_id with
  | none => .error "IntegrityError: company_id is None"
  | some cid =>
    .ok
      { company_id := cid
        company_name := aggregate.company.company_name
        country_id := aggregate.company.country_id
        created_at := aggregate.company.created_at
        updated_at := aggregate.company.updated_at }

/-- `save`: convert to a model, merge/flush/refresh, convert back.  The
returned aggregate is a fresh object built by `_model_to_aggregate`. -/
def save (db : CompanyTable) (company : CompanyAggregate)
    (genNow : PyDateTime) : Except String (CompanyTable × CompanyAggregate) :=
  match aggregate_to_model company with
  | .error msg => .error msg
  | .ok model =>
    let db1 := mergeRow db model
    match model_to_aggregate model genNow with
    | .error msg => .error msg
    | .ok aggregate => .ok (db1, aggregate)

/-- `find_by_id`: first row with this `company_id`, mapped back to an
aggregate. -/
def find_by_id (db : CompanyTable) (company_id : PyUUID)
    (genNow : PyDateTime) : Except String (Option CompanyAggregate) :=
  match db.find? (fun r => r.company_id = company_id) with
  | none => .ok none
  | some model =>
    match model_to_aggregate model genNow with
    | .error msg => .error msg
    | .ok aggregate => .ok (some aggregate)

/-- `find_by_name`: first row with this `company_name`, mapped back to an
aggregate. -/
def find_by_name (db : CompanyTable) (company_name : String)
    (genNow : PyDateTime) : Except String (Option CompanyAggregate) :=
  match db.find? (fun r => r.company_name = company_name) with
  | none => .ok none
  | some model =>
    match model_to_aggregate model genNow with
    | .error msg => .error msg
    | .ok aggregate => .ok (some aggregate)

end PostgresCompanyRepository

/-! ### DTOs and mapper -/

/-- `CompanyDetailDTO` (`app/application/dtos/company_dto.py`). -/
structure CompanyDetailDTO where
  identification_type_id : PyUUID
  identity_number : String
  address : Option String := none
  number_indicative : Option String := none
  phone_number : Option String := none
  email : Option String := none
  city_id : Option PyUUID := none
  active : Bool := true
  person_type : Option String := none
  status : Option String := none
  verified : Bool := false
deriving DecidableEq, Repr

/-- `CompanyTypeDTO`. -/
structure CompanyTypeDTO where
  company_types_id : PyUUID
  type_name : String
deriving DecidableEq, Repr

/-- `CreateCompanyDTO`. -/
structure CreateCompanyDTO where
  company_name : String
  country_id : PyUUID
  details : Option (List CompanyDetailDTO) := none
  company_type_ids : Option (List PyUUID) := none
deriving DecidableEq, Repr

/-- `UpdateCompanyDTO`: all fields optional for partial updates. -/
structure UpdateCompanyDTO where
  company_name : Option String := none
  country_id : Option PyUUID := none
  details : Option (List CompanyDetailDTO) := none
  company_type_ids : Option (List PyUUID) := none
deriving DecidableEq, Repr

/-- `CompanyDTO` (the response object). -/
structure CompanyDTO where
  company_id : Option PyUUID
  company_name : String
  country_id : PyUUID
  created_at : PyDateTime
  updated_at : Option PyDateTime
  details : Option (List CompanyDetailDTO) := none
  company_types : Option (List CompanyTypeDTO) := none
deriving DecidableEq, Repr

/-- `CompanyMapper.to_dto`: copies the five company properties; `details` and
`company_types` are left to their `None` defaults. -/
def CompanyMapper_to_dto (aggregate : CompanyAggregate) : CompanyDTO :=
  { company_id := aggregate.company.company_id
    company_name := aggregate.company.company_name
    country_id := aggregate.company.country_id
    created_at := aggregate.company.created_at
    updated_at := aggregate.company.updated_at }

/-! ### Use cases -/

/-- The domain exceptions a use case can raise
(`app/domain/exceptions/company_exceptions.py`, plus `ValueError` from the
domain layer). -/
inductive UCError where
  | companyNotFound (company_id : PyUUID)
  | companyAlreadyExists (company_name : String)
  | valueError (msg : String)
deriving DecidableEq, Repr

/-- Observable outcome of `UpdateCompanyUseCase.execute`: the returned DTO or
raised exception, the events the use case handed to `event_bus.publish`, the
events still sitting on the use case's local `company_aggregate` object when
the call ends, and the table contents. -/
structure UpdateExecTrace where
  result : Except UCError CompanyDTO
  eventsPublishedToBus : List DomainEvent
  localAggregateEvents : List DomainEvent
  db : CompanyTable
deriving Repr

/-- `UpdateCompanyUseCase.execute`
(`app/application/use_cases/company/update_company.py`): find the aggregate,
check the new name for conflicts (`if dto.company_name and
dto.company_name != ...` — `None` and `""` are falsy), run
`aggregate.update`, `save`, then publish `saved_company.events` and clear
them on `saved_company`.  `genEventId`/`n1`/`n2`/`n3`/`n4` feed
`CompanyAggregate.update`; `genNow` feeds the repository constructors. -/
def UpdateCompanyUseCase_execute (db : CompanyTable) (company_id : PyUUID)
    (dto : UpdateCompanyDTO) (genEventId : String)
    (n1 n2 n3 n4 genNow : PyDateTime) : UpdateExecTrace :=
  match PostgresCompanyRepository.find_by_id db company_id genNow with
  | .error msg =>
    { result := .error (.valueError msg), eventsPublishedToBus := []
      localAggregateEvents := [], db := db }
  | .ok none =>
    { result := .error (.companyNotFound company_id)
      eventsPublishedToBus := [], localAggregateEvents := [], db := db }
  | .ok (some company_aggregate) =>
    let conflict : Option UCError :=
      match dto.company_name with
      | some n =>
        if n ≠ "" ∧ n ≠ company_aggregate.company.company_name then
          match PostgresCompanyRepository.find_by_name db n genNow with
          | .error msg => some (.valueError msg)
          | .ok (some existing) =>
            if existing.company.company_id ≠ some company_id then
              some (.companyAlreadyExists n)
            else none
          | .ok none => none
        else none
      | none => none
    match conflict with
    | some err =>
      { result := .error err, eventsPublishedToBus := []
        localAggregateEvents := company_aggregate.events, db := db }
    | none =>
      match CompanyAggregate.update company_aggregate dto.company_name
          dto.country_id genEventId n1 n2 n3 n4 with
      | (some msg, aggAfter) =>
        { result := .error (.valueError msg), eventsPublishedToBus := []
          localAggregateEvents := aggAfter.events, db := db }
      | (none, aggAfter) =>
        match PostgresCompanyRepository.save db aggAfter genNow with
        | .error msg =>
          { result := .error (.valueError msg), eventsPublishedToBus := []
            localAggregateEvents := aggAfter.events, db := db }
        | .ok (db1, saved_company) =>
          { result := .ok (CompanyMapper_to_dto saved_company.clear_events)
            eventsPublishedToBus := saved_company.events
            localAggregateEvents := aggAfter.events
            db := db1 }

/-- Observable outcome of `CreateCompanyUseCase.execute`. -/
structure CreateExecTrace where
  result : Except UCError CompanyDTO
  eventsPublishedToBus : List DomainEvent
  localAggregateEvents : List DomainEvent
  db : CompanyTable
deriving Repr

/-- `CreateCompanyUseCase.execute`
(`src/app/application/use_cases/company/create_company.py`): name-conflict
check, `CompanyAggregate.create`, `save`, map to DTO.  The event-publishing
block is commented out in the source (`# TODO: Publish domain events`), so
nothing is ever handed to an event bus and the created aggregate keeps its
event. -/
def CreateCompanyUseCase_execute (db : CompanyTable) (dto : CreateCompanyDTO)
    (genCompanyId : PyUUID) (genEventId : String) (now genNow : PyDateTime) :
    CreateExecTrace :=
  match PostgresCompanyRepository.find_by_name db dto.company_name genNow with
  | .error msg =>
    { result := .error (.valueError msg), eventsPublishedToBus := []
      localAggregateEvents := [], db := db }
  | .ok (some _) =>
    { result := .error (.companyAlreadyExists dto.company_name)
      eventsPublishedToBus := [], localAggregateEvents := [], db := db }
  | .ok none =>
    match CompanyAggregate.create genCompanyId now genEventId dto.company_name
        (some dto.country_id) with
    | .error msg =>
      { result := .error (.valueError msg), eventsPublishedToBus := []
        localAggregateEvents := [], db := db }
    | .ok company_aggregate =>
      match PostgresCompanyRepository.save db company_aggregate genNow with
      | .error msg =>
        { result := .error (.valueError msg), eventsPublishedToBus := []
          localAggregateEvents := company_aggregate.events, db := db }
      | .ok (db1, saved_company) =>
        { result := .ok (CompanyMapper_to_dto saved_company)
          eventsPublishedToBus := []
          localAggregateEvents := company_aggregate.events
          db := db1 }

/-! ### Priority dispatcher

Modelled from the spec: the spec describes several event-bus drafts — "plain
in-memory, wrapped external package, AWS-backed with local failover" — but
only the wrapper over the external `events_bus` package is present under the
source tree, and the handler ordering itself lives in the external package's
`EventHandlerRegistry`.  The in-memory dispatcher with
`subscribe(event_type, handler, priority)` is therefore rebuilt from the
spec's words: "registers a handler for a given event type; stores handlers in
priority order (higher first)", "within one event type, handlers execute in
descending priority order, ties broken by registration order", and
`publish` "resolves handlers for the event's runtime type/name; invokes each
in turn". -/

/-- Modelled from the spec: one registration in the dispatcher — the
handler's priority, its registration sequence number, and the handler id. -/
structure Subscription where
  priority : Int
  seq : Nat
  hid : Nat
deriving DecidableEq, Repr

/-- Modelled from the spec: insert a new subscription into a stored handler
list so that higher priorities come first and a tie goes after the already
registered handlers. -/
def insertSub (s : Subscription) : List Subscription → List Subscription
  | [] => [s]
  | t :: ts => if t.priority < s.priority then s :: t :: ts else t :: insertSub s ts

/-- Modelled from the spec: the dispatcher state — the mapping from event
type to its ordered subscription list, plus the registration counter. -/
structure Dispatcher where
  table : String → List Subscription
  nextSeq : Nat

/-- Modelled from the spec: the dispatcher with no registrations. -/
def Dispatcher.empty : Dispatcher :=
  { table := fun _ => [], nextSeq := 0 }

/-- Modelled from the spec: `subscribe(event_type, handler, priority)` —
stores the handler in the event type's list in priority order, higher
first, after existing handlers of equal priority. -/
def Dispatcher.subscribe (d : Dispatcher) (event_type : String) (hid : Nat)
    (priority : Int) : Dispatcher :=
  { table := fun et =>
      if et = event_type then
        insertSub { priority := priority, seq := d.nextSeq, hid := hid }
          (d.table event_type)
      else d.table et
    nextSeq := d.nextSeq + 1 }

/-- Modelled from the spec: `publish(event)` resolves the handlers stored for
the event's type and invokes each in turn; the invocation order is the
stored order. -/
def Dispatcher.publishOrder (d : Dispatcher) (event_type : String) :
    List Nat :=
  (d.table event_type).map (fun s => s.hid)

/-- Modelled from the spec: register a batch of `(event_type, handler id,
priority)` subscriptions in the given order, starting from the empty
dispatcher. -/
def Dispatcher.registerAll (regs : List (String × Nat × Int)) : Dispatcher :=
  regs.foldl (fun d r => d.subscribe r.1 r.2.1 r.2.2) Dispatcher.empty

/-- The dispatch order the spec promises within one event type: strictly
higher priority first, and among equal priorities the earlier registration
first. -/
def SubOrder (a b : Subscription) : Prop :=
  b.priority < a.priority ∨ (a.priority = b.priority ∧ a.seq < b.seq)

/-! ### Helper lemmas -/

/-- The `_trigger_handlers` loop records, for every handler in the list, the
outcome of its own guarded invocation: dispatch is a `map`, never a
short-circuit. -/
theorem triggerLoop_eq_map (l : List Handler) (e : DomainEvent) :
    triggerLoop l e = l.map (fun h => (h.hid, runHandler h e)) := by
  induction l with
  | nil => rfl
  | cons h rest ih => simp [triggerLoop, ih]

/-- Membership in an `insertSub` result. -/
theorem mem_insertSub {u s : Subscription} {l : List Subscription} :
    u ∈ insertSub s l ↔ u = s ∨ u ∈ l := by
  induction l with
  | nil => simp [insertSub]
  | cons t ts ih =>
    rw [insertSub]
    by_cases h : t.priority < s.priority
    · rw [if_pos h]
      simp only [List.mem_cons]
    · rw [if_neg h]
      simp only [List.mem_cons, ih]
      tauto

/-- Inserting a subscription whose sequence number is fresh (larger than all
stored ones) keeps the stored list ordered by priority, ties broken by
registration order. -/
theorem pairwise_insertSub {s : Subscription} {l : List Subscription}
    (hl : l.Pairwise SubOrder) (hseq : ∀ t ∈ l, t.seq < s.seq) :
    (insertSub s l).Pairwise SubOrder := by
  induction l with
  | nil => simp [insertSub, List.pairwise_singleton]
  | cons t ts ih =>
    rcases List.pairwise_cons.mp hl with ⟨ht, hts⟩
    by_cases h : t.priority < s.priority
    · rw [insertSub, if_pos h]
      refine List.pairwise_cons.mpr ⟨?_, hl⟩
      intro u hu
      rcases List.mem_cons.mp hu with rfl | hu
      · exact Or.inl h
      · rcases ht u hu with h1 | h1
        · exact Or.inl (lt_trans h1 h)
        · exact Or.inl (h1.1 ▸ h)
    · rw [insertSub, if_neg h]
      refine List.pairwise_cons.mpr ⟨?_, ?_⟩
      · intro u hu
        rcases mem_insertSub.mp hu with rfl | hu
        · rcases lt_or_eq_of_le (not_lt.mp h) with h1 | h1
          · exact Or.inl h1
          · exact Or.inr ⟨h1.symm, hseq t (List.mem_cons_self t ts)⟩
        · exact ht u hu
      · exact ih hts (fun u hu => hseq u (List.mem_cons_of_mem t hu))

/-- The dispatcher invariant: every stored per-type list is ordered by
`SubOrder` and all stored sequence numbers are below the registration
counter. -/
def DispatcherInv (d : Dispatcher) : Prop :=
  ∀ et, (d.table et).Pairwise SubOrder ∧ ∀ s ∈ d.table et, s.seq < d.nextSeq

/-- `subscribe` preserves the dispatcher invariant. -/
theorem dispatcherInv_subscribe {d : Dispatcher} (hd : DispatcherInv d)
    (event_type : String) (hid : Nat) (priority : Int) :
    DispatcherInv (d.subscribe event_type hid priority) := by
  intro et
  unfold Dispatcher.subscribe
  by_cases h : et = event_type
  · simp only [h, if_pos rfl]
    constructor
    · exact pairwise_insertSub (hd event_type).1 (fun t ht => (hd event_type).2 t ht)
    · intro s hs
      rcases mem_insertSub.mp hs with rfl | hs
      · exact Nat.lt_succ_self _
      · exact Nat.lt_succ_of_lt ((hd event_type).2 s hs)
  · simp only [if_neg h]
    exact ⟨(hd et).1, fun s hs => Nat.lt_succ_of_lt ((hd et).2 s hs)⟩

/-- Registering any batch of subscriptions from any invariant-respecting
start state preserves the invariant. -/
theorem dispatcherInv_foldl (regs : List (String × Nat × Int)) :
    ∀ d : Dispatcher, DispatcherInv d →
      DispatcherInv (regs.foldl (fun d r => d.subscribe r.1 r.2.1 r.2.2) d) := by
  induction regs with
  | nil => intro d hd; exact hd
  | cons r rest ih =>
    intro d hd
    exact ih _ (dispatcherInv_subscribe hd r.1 r.2.1 r.2.2)

/-! ### Claim theorems -/

/-- C7: for every event, when the global `event_bus_enabled` flag is off,
`EventBusService.publish` is a no-op — it returns normally, hands nothing to
the underlying publisher, and invokes no registered handler. -/
theorem publish_disabled_is_noop (publisher : DomainEvent → Except String Unit)
    (reg : HandlerRegistry) (e : DomainEvent) :
    EventBusService_publish false publisher reg e =
      { publisherCalls := [], publisherError := none, handlerRuns := [] } :=
  rfl

/-- C6: for every published event (bus enabled, event itself published
successfully), every registered handler for the event is invoked with its own
outcome recorded — a raising handler does not prevent any later handler from
running — and `publish` swallows the errors, returning a normal trace. -/
theorem handler_error_does_not_stop_dispatch (reg : HandlerRegistry)
    (publisher : DomainEvent → Except String Unit) (e : DomainEvent)
    (hpub : publisher e = .ok ()) :
    (EventBusService_publish true publisher reg e).handlerRuns
        = (get_handlers_by_event reg e.event_name).map
            (fun h => (h.hid, runHandler h e))
    ∧ (∀ h ∈ get_handlers_by_event reg e.event_name,
        (h.hid, runHandler h e) ∈
          (EventBusService_publish true publisher reg e).handlerRuns)
    ∧ (EventBusService_publish true publisher reg e).publisherError = none := by
  have hruns : (EventBusService_publish true publisher reg e).handlerRuns
      = (get_handlers_by_event reg e.event_name).map
          (fun h => (h.hid, runHandler h e)) := by
    simp only [EventBusService_publish, hpub, EventBusService_trigger_handlers]
    by_cases hempty : (get_handlers_by_event reg e.event_name).isEmpty
    · simp [hempty, List.isEmpty_iff.mp hempty]
    · simp [hempty, triggerLoop_eq_map]
  refine ⟨hruns, ?_, ?_⟩
  · intro h hmem
    rw [hruns]
    exact List.mem_map.mpr ⟨h, hmem, rfl⟩
  · simp [EventBusService_publish, hpub]

/-- C6 witness: with two handlers registered for the event — the first one
raising — both handlers appear in the dispatch trace and no error escapes. -/
theorem handler_error_does_not_stop_dispatch_witness :
    (fun _ : DomainEvent => (.ok () : Except String Unit))
        (.created ⟨.str "E", "id1", 1⟩ "c1" "Acme" "co1") = .ok ()
    ∧ ((EventBusService_publish true
          (fun _ => (.ok () : Except String Unit))
          [(.str "E",
            [⟨1, .async, fun _ => .error "boom"⟩, ⟨2, .sync, fun _ => .ok ()⟩])]
          (.created ⟨.str "E", "id1", 1⟩ "c1" "Acme" "co1")).handlerRuns
        = (get_handlers_by_event
            [(.str "E",
              [⟨1, .async, fun _ => .error "boom"⟩, ⟨2, .sync, fun _ => .ok ()⟩])]
            (DomainEvent.created ⟨.str "E", "id1", 1⟩ "c1" "Acme" "co1").event_name).map
            (fun h => (h.hid, runHandler h
              (.created ⟨.str "E", "id1", 1⟩ "c1" "Acme" "co1")))
      ∧ (∀ h ∈ get_handlers_by_event
            [(.str "E",
              [⟨1, .async, fun _ => .error "boom"⟩, ⟨2, .sync, fun _ => .ok ()⟩])]
            (DomainEvent.created ⟨.str "E", "id1", 1⟩ "c1" "Acme" "co1").event_name,
          (h.hid, runHandler h (.created ⟨.str "E", "id1", 1⟩ "c1" "Acme" "co1")) ∈
            (EventBusService_publish true
              (fun _ => (.ok () : Except String Unit))
              [(.str "E",
                [⟨1, .async, fun _ => .error "boom"⟩, ⟨2, .sync, fun _ => .ok ()⟩])]
              (.created ⟨.str "E", "id1", 1⟩ "c1" "Acme" "co1")).handlerRuns)
      ∧ (EventBusService_publish true
          (fun _ => (.ok () : Except String Unit))
          [(.str "E",
            [⟨1, .async, fun _ => .error "boom"⟩, ⟨2, .sync, fun _ => .ok ()⟩])]
          (.created ⟨.str "E", "id1", 1⟩ "c1" "Acme" "co1")).publisherError = none) :=
  ⟨rfl,
    handler_error_does_not_stop_dispatch
      [(.str "E",
        [⟨1, .async, fun _ => .error "boom"⟩, ⟨2, .sync, fun _ => .ok ()⟩])]
      (fun _ => (.ok () : Except String Unit))
      (.created ⟨.str "E", "id1", 1⟩ "c1" "Acme" "co1") rfl⟩

/-- C10: for every `CompanyCreated` event (its stored `event_id` is never the
empty string, since the generator is `uuid4().hex`),
`from_dict(event_id, occurred_on, to_dict())` rebuilds an event whose
`company_id`, `company_name`, `country_id`, `event_id` and `occurred_on`
equal the original ones (the serialization round-trip). -/
theorem companyCreated_roundtrip (b : BaseDomainEventData)
    (cid : PyUUID) (cname : String) (ctryid : PyUUID) (genId : String)
    (genNow : PyDateTime) (hid : b.event_id ≠ "") :
    CompanyCreated_from_dict (DomainEvent.created b cid cname ctryid).event_id
        (DomainEvent.created b cid cname ctryid).occurred_on
        (DomainEvent.created b cid cname ctryid).to_dict genId genNow
      = .ok (.created ⟨.str companyCreatedEventName, b.event_id, b.occurred_on⟩
          cid cname ctryid) := by
  simp [CompanyCreated_from_dict, DomainEvent.to_dict, DomainEvent.event_id,
    DomainEvent.occurred_on, DomainEvent.base, List.lookup,
    CompanyCreated_init, BaseDomainEvent_init, pyUUIDOfStr, pyStrOfUUID, hid]

/-- C10 witness: the round-trip evaluated on a concrete created event. -/
theorem companyCreated_roundtrip_witness :
    ("id7" : String) ≠ ""
    ∧ CompanyCreated_from_dict
        (DomainEvent.created ⟨.str companyCreatedEventName, "id7", 42⟩ "c1" "Acme" "co1").event_id
        (DomainEvent.created ⟨.str companyCreatedEventName, "id7", 42⟩ "c1" "Acme" "co1").occurred_on
        (DomainEvent.created ⟨.str companyCreatedEventName, "id7", 42⟩ "c1" "Acme" "co1").to_dict
        "gen" 99
      = .ok (.created ⟨.str companyCreatedEventName, "id7", 42⟩ "c1" "Acme" "co1") :=
  ⟨by decide,
    companyCreated_roundtrip ⟨.str companyCreatedEventName, "id7", 42⟩ "c1"
      "Acme" "co1" "gen" 99 (by decide)⟩

/-- C2: refuted on the code.  `CompanyUpdated.__init__` passes `occurred_at`
positionally into the `event_name` parameter of `BaseDomainEvent.__init__`,
so the `CompanyUpdated` event emitted by `CompanyAggregate.update` carries
the occurrence datetime — not any string, let alone the company-updated event
name — in its `event_name` slot.  Evaluated at a concrete changed-name
update. -/
theorem companyUpdated_event_name_is_a_datetime :
    (CompanyAggregate.update
        ⟨⟨some "c1", "Acme", "co1", 10, none⟩, [], [], []⟩
        (some "NewName") none "evid" 1 2 3 4).2.events
      = [.updated ⟨.dt 3, "evid", 4⟩ (some "c1") "NewName" "co1"]
    ∧ ∀ s : String,
        ((CompanyAggregate.update
            ⟨⟨some "c1", "Acme", "co1", 10, none⟩, [], [], []⟩
            (some "NewName") none "evid" 1 2 3 4).2.events.map
          DomainEvent.event_name) ≠ [.str s] := by
  have h1 : (CompanyAggregate.update
      ⟨⟨some "c1", "Acme", "co1", 10, none⟩, [], [], []⟩
      (some "NewName") none "evid" 1 2 3 4).2.events
      = [.updated ⟨.dt 3, "evid", 4⟩ (some "c1") "NewName" "co1"] := by decide
  refine ⟨h1, ?_⟩
  intro s
  rw [h1]
  simp [DomainEvent.event_name, DomainEvent.base]

/-- C3: for every valid non-blank name of at most 255 characters and every
present country id, `CompanyAggregate.create` succeeds and the new
aggregate's event list is exactly one `CompanyCreated` event and nothing
else. -/
theorem create_emits_exactly_one_created_event (genCompanyId : PyUUID)
    (genNow : PyDateTime) (genEventId : String) (company_name : String)
    (cid : PyUUID) (hname : (pyStrip company_name).length ≠ 0)
    (hlen : company_name.length ≤ 255) :
    ∃ agg, CompanyAggregate.create genCompanyId genNow genEventId company_name
        (some cid) = .ok agg
      ∧ agg.events = [CompanyCreated_init genCompanyId company_name cid none
          (some genNow) genEventId genNow] := by
  have hne : company_name ≠ "" := by
    intro h
    apply hname
    rw [h]
    decide
  have hcond : ¬ (company_name = "" ∨ (pyStrip company_name).length = 0) := by
    push_neg
    exact ⟨hne, hname⟩
  have hlen255 : ¬ company_name.length > 255 := by omega
  unfold CompanyAggregate.create
  rw [if_neg hcond]
  unfold CompanyAggregate.init Company.init
  have hv : Company.validate company_name = none := by
    unfold Company.validate
    rw [if_neg hcond, if_neg hlen255]
  rw [hv]
  exact ⟨_, rfl, rfl⟩

/-- C3 witness: creating `"Acme"` in country `"co1"` yields exactly one
`CompanyCreated` event. -/
theorem create_emits_exactly_one_created_event_witness :
    ((pyStrip "Acme").length ≠ 0 ∧ "Acme".length ≤ 255)
    ∧ ∃ agg, CompanyAggregate.create "c1" 10 "evid" "Acme" (some "co1") = .ok agg
        ∧ agg.events = [CompanyCreated_init "c1" "Acme" "co1" none (some 10)
            "evid" 10] :=
  ⟨⟨by decide, by decide⟩,
    create_emits_exactly_one_created_event "c1" 10 "evid" "Acme" "co1"
      (by decide) (by decide)⟩

/-- C8: for every name that is empty, whitespace-only, or longer than 255
characters, `CompanyAggregate.create` raises a validation error (no aggregate
exists, so no event is recorded), and `CompanyAggregate.update` with such a
name on any valid aggregate raises and returns with the aggregate exactly as
it was — no field mutated and no event appended.  (An empty name has
`pyStrip`-length 0, so the first disjunct covers both empty and
whitespace-only names.) -/
theorem invalid_name_rejected_without_mutation (name : String)
    (agg : CompanyAggregate) (countryArg1 countryArg2 : Option PyUUID)
    (genCompanyId : PyUUID) (genEventId : String)
    (n0 n1 n2 n3 genNow : PyDateTime)
    (hbad : (pyStrip name).length = 0 ∨ name.length > 255)
    (hvalid : (pyStrip agg.company.company_name).length ≠ 0
      ∧ agg.company.company_name.length ≤ 255) :
    (∃ msg, CompanyAggregate.create genCompanyId n0 genEventId name countryArg1
        = .error msg)
    ∧ (∃ msg, CompanyAggregate.update agg (some name) countryArg2 genEventId
        n1 n2 n3 genNow = (some msg, agg)) := by
  obtain ⟨hv1, hv2⟩ := hvalid
  have hne : name ≠ agg.company.company_name := by
    intro h
    rcases hbad with hstrip | hlen
    · exact hv1 (h ▸ hstrip)
    · rw [h] at hlen
      omega
  have hupdname : ∃ msg, Company.update_name agg.company name n1 = .error msg := by
    unfold Company.update_name
    by_cases hE : name = "" ∨ (pyStrip name).length = 0
    · rw [if_pos hE]
      exact ⟨_, rfl⟩
    · rcases hbad with hstrip | hlen
      · exact absurd (Or.inr hstrip) hE
      · rw [if_neg hE, if_pos hlen]
        exact ⟨_, rfl⟩
  constructor
  · unfold CompanyAggregate.create
    by_cases hE : name = "" ∨ (pyStrip name).length = 0
    · rw [if_pos hE]
      exact ⟨_, rfl⟩
    · rcases hbad with hstrip | hlen
      · exact absurd (Or.inr hstrip) hE
      · rw [if_neg hE]
        cases countryArg1 with
        | none => exact ⟨_, rfl⟩
        | some cid =>
          unfold CompanyAggregate.init Company.init
          have hv : Company.validate name = some "Company name cannot exceed 255 characters" := by
            unfold Company.validate
            rw [if_neg hE, if_pos hlen]
          rw [hv]
          exact ⟨_, rfl⟩
  · obtain ⟨msg, hmsg⟩ := hupdname
    refine ⟨msg, ?_⟩
    simp [CompanyAggregate.update, hne, hmsg]

/-- C8 witness: the whitespace-only name `" "` is rejected by both `create`
and `update` on a concrete aggregate, which is returned unchanged. -/
theorem invalid_name_rejected_without_mutation_witness :
    (((pyStrip " ").length = 0 ∨ (" ").length > 255)
      ∧ ((pyStrip "Acme").length ≠ 0 ∧ ("Acme").length ≤ 255))
    ∧ ((∃ msg, CompanyAggregate.create "c9" 7 "evid" " " (some "co1")
          = .error msg)
      ∧ (∃ msg, CompanyAggregate.update
          ⟨⟨some "c1", "Acme", "co1", 10, none⟩, [], [], []⟩ (some " ") none
          "evid" 1 2 3 4 = (some msg,
            ⟨⟨some "c1", "Acme", "co1", 10, none⟩, [], [], []⟩))) :=
  ⟨⟨by decide, by decide, by decide⟩,
    invalid_name_rejected_without_mutation " "
      ⟨⟨some "c1", "Acme", "co1", 10, none⟩, [], [], []⟩ (some "co1") none
      "c9" "evid" 7 1 2 3 4 (by decide) ⟨by decide, by decide⟩⟩

/-- C9: on an aggregate whose details have pairwise-distinct identity
numbers, `add_detail` with an already-present identity number raises and
leaves the detail collection (indeed the whole aggregate) unchanged; and the
distinctness invariant is preserved by every detail operation — a successful
`add_detail` and any `remove_detail` keep the details pairwise distinct. -/
theorem add_detail_duplicate_rejected (agg : CompanyAggregate)
    (d : CompanyDetailVO)
    (hdist : agg.details.Pairwise
      (fun a b => a.identity_number ≠ b.identity_number)) :
    ((∃ ed ∈ agg.details, ed.identity_number = d.identity_number) →
      ∃ msg, agg.add_detail (some d) = (some msg, agg))
    ∧ ((agg.add_detail (some d)).1 = none →
      (agg.add_detail (some d)).2.details.Pairwise
        (fun a b => a.identity_number ≠ b.identity_number))
    ∧ (∀ idnum, (agg.remove_detail idnum).2.details.Pairwise
        (fun a b => a.identity_number ≠ b.identity_number)) := by
  refine ⟨?_, ?_, ?_⟩
  · rintro ⟨ed, hed, heq⟩
    have hany : agg.details.any
        (fun existing => existing.identity_number = d.identity_number) = true := by
      rw [List.any_eq_true]
      exact ⟨ed, hed, by simpa using heq⟩
    refine ⟨"Detail with identity number " ++ d.identity_number ++ " already exists", ?_⟩
    simp only [CompanyAggregate.add_detail, hany, if_true]
  · intro h1
    by_cases hany : agg.details.any
        (fun existing => existing.identity_number = d.identity_number) = true
    · exfalso
      simp [CompanyAggregate.add_detail, hany] at h1
    · have hfresh : ∀ a ∈ agg.details, a.identity_number ≠ d.identity_number := by
        intro a ha
        rw [List.any_eq_true] at hany
        push_neg at hany
        simpa using hany a ha
      simp only [CompanyAggregate.add_detail, hany, if_false, Bool.false_eq_true,
        if_neg]
      rw [List.pairwise_append]
      refine ⟨hdist, List.pairwise_singleton _ _, ?_⟩
      intro a ha b hb
      rw [List.mem_singleton] at hb
      subst hb
      exact hfresh a ha
  · intro idnum
    unfold CompanyAggregate.remove_detail
    by_cases h : agg.details.any (fun d0 => d0.identity_number = idnum) = true
    · simp only [h, if_true]
      exact List.Pairwise.sublist (List.eraseP_sublist _) hdist
    · simp only [h, if_neg]
      exact hdist

/-- C9 witness: a concrete aggregate holding one detail with identity number
`"123"` rejects a second detail with the same identity number and is left
unchanged. -/
theorem add_detail_duplicate_rejected_witness :
    ([(⟨"t1", "123", none, none, none, none, none, true, none, none, false⟩ :
        CompanyDetailVO)].Pairwise
      (fun a b => a.identity_number ≠ b.identity_number)
      ∧ (∃ ed ∈ [(⟨"t1", "123", none, none, none, none, none, true, none, none,
          false⟩ : CompanyDetailVO)],
          ed.identity_number = (⟨"t2", "123", none, none, none, none, none,
            true, none, none, false⟩ : CompanyDetailVO).identity_number))
    ∧ ∃ msg,
        (CompanyAggregate.add_detail
          ⟨⟨some "c1", "Acme", "co1", 10, none⟩,
            [⟨"t1", "123", none, none, none, none, none, true, none, none, false⟩],
            [], []⟩
          (some ⟨"t2", "123", none, none, none, none, none, true, none, none, false⟩))
        = (some msg,
            ⟨⟨some "c1", "Acme", "co1", 10, none⟩,
              [⟨"t1", "123", none, none, none, none, none, true, none, none, false⟩],
              [], []⟩) :=
  ⟨⟨by decide, by decide⟩,
    (add_detail_duplicate_rejected
      ⟨⟨some "c1", "Acme", "co1", 10, none⟩,
        [⟨"t1", "123", none, none, none, none, none, true, none, none, false⟩],
        [], []⟩
      ⟨"t2", "123", none, none, none, none, none, true, none, none, false⟩
      (by decide)).1 (by decide)⟩

/-- C5: subscribing two handlers with priorities 10 and 5 to one event type
and publishing invokes them in the order [10-handler, 5-handler]; and in
general, after any sequence of registrations, the stored (hence invocation)
order for each event type is descending in priority with ties broken by
registration order (`SubOrder`). -/
theorem dispatcher_descending_priority (regs : List (String × Nat × Int))
    (event_type : String) :
    (((Dispatcher.empty.subscribe "E" 1 10).subscribe "E" 2 5).publishOrder "E"
        = [1, 2])
    ∧ ((Dispatcher.registerAll regs).table event_type).Pairwise SubOrder := by
  constructor
  · rfl
  · have hempty : DispatcherInv Dispatcher.empty := by
      intro et
      exact ⟨List.Pairwise.nil, fun s hs => absurd hs (List.not_mem_nil s)⟩
    exact (dispatcherInv_foldl regs Dispatcher.empty hempty event_type).1

/-- C4: `update` called with only absent or unchanged values appends no event
and leaves the aggregate untouched; called with at least one changed field —
any changed name being valid, any provided country id being a real (non-empty
in the string model) UUID — it succeeds and appends exactly one
`CompanyUpdated` event to the aggregate's event list. -/
theorem update_unchanged_none_changed_one_event (agg : CompanyAggregate)
    (nameArg : Option String) (countryArg : Option PyUUID)
    (genEventId : String) (n1 n2 n3 genNow : PyDateTime) :
    ((nameArg = none ∨ nameArg = some agg.company.company_name) →
      (countryArg = none ∨ countryArg = some agg.company.country_id) →
      CompanyAggregate.update agg nameArg countryArg genEventId n1 n2 n3 genNow
        = (none, agg))
    ∧ ((∀ n, nameArg = some n → n ≠ agg.company.company_name →
          n ≠ "" ∧ (pyStrip n).length ≠ 0 ∧ n.length ≤ 255) →
      (∀ c, countryArg = some c → c ≠ "") →
      ((∃ n, nameArg = some n ∧ n ≠ agg.company.company_name)
        ∨ (∃ c, countryArg = some c ∧ c ≠ agg.company.country_id)) →
      (CompanyAggregate.update agg nameArg countryArg genEventId n1 n2 n3
          genNow).1 = none
      ∧ ∃ b cidOpt nm ctry,
          (CompanyAggregate.update agg nameArg countryArg genEventId n1 n2 n3
            genNow).2.events
            = agg.events ++ [DomainEvent.updated b cidOpt nm ctry]) := by
  constructor
  · rintro (rfl | rfl) (rfl | rfl) <;>
      simp [CompanyAggregate.update]
  · intro hvn hvc hch
    rcases hOn : nameArg with _ | n
    · rcases hch with ⟨n, hn, _⟩ | ⟨c, hc, hcne⟩
      · rw [hOn] at hn
        exact absurd hn (by simp)
      · subst hc
        have hc0 : c ≠ "" := hvc c rfl
        have heq : CompanyAggregate.update agg none (some c) genEventId n1 n2 n3 genNow = (none, { agg with company := { agg.company with country_id := c, updated_at := some n2 }, events := agg.events ++ [CompanyUpdated_init agg.company.company_id agg.company.company_name c (some n3) genEventId genNow] }) := by
          simp [CompanyAggregate.update, Company.update_country, hcne, hc0]
        rw [heq]
        exact ⟨rfl, _, _, _, _, rfl⟩
    · subst hOn
      by_cases hnc : n = agg.company.company_name
      · subst hnc
        rcases hch with ⟨n2, hn2, hne2⟩ | ⟨c, hc, hcne⟩
        · rw [Option.some_inj] at hn2
          exact absurd hn2.symm hne2
        · subst hc
          have hc0 : c ≠ "" := hvc c rfl
          have heq : CompanyAggregate.update agg (some agg.company.company_name) (some c) genEventId n1 n2 n3 genNow = (none, { agg with company := { agg.company with country_id := c, updated_at := some n2 }, events := agg.events ++ [CompanyUpdated_init agg.company.company_id agg.company.company_name c (some n3) genEventId genNow] }) := by
            simp [CompanyAggregate.update, Company.update_country, hcne, hc0]
          rw [heq]
          exact ⟨rfl, _, _, _, _, rfl⟩
      · obtain ⟨hne0, hns, hnl⟩ := hvn n rfl hnc
        have hnameok : ¬ (n = "" ∨ (pyStrip n).length = 0) := by
          push_neg
          exact ⟨hne0, hns⟩
        have hlenok : ¬ n.length > 255 := by omega
        rcases hOc : countryArg with _ | c
        · have heq : CompanyAggregate.update agg (some n) none genEventId n1 n2 n3 genNow = (none, { agg with company := { agg.company with company_name := n, updated_at := some n1 }, events := agg.events ++ [CompanyUpdated_init agg.company.company_id n agg.company.country_id (some n3) genEventId genNow] }) := by
            simp [CompanyAggregate.update, Company.update_name, hnc, hnameok, hlenok]
          rw [heq]
          exact ⟨rfl, _, _, _, _, rfl⟩
        · by_cases hcc : c = agg.company.country_id
          · subst hcc
            have heq : CompanyAggregate.update agg (some n) (some agg.company.country_id) genEventId n1 n2 n3 genNow = (none, { agg with company := { agg.company with company_name := n, updated_at := some n1 }, events := agg.events ++ [CompanyUpdated_init agg.company.company_id n agg.company.country_id (some n3) genEventId genNow] }) := by
              simp [CompanyAggregate.update, Company.update_name, hnc, hnameok, hlenok]
            rw [heq]
            exact ⟨rfl, _, _, _, _, rfl⟩
          · have hc0 : c ≠ "" := hvc c (by rw [hOc])
            have heq : CompanyAggregate.update agg (some n) (some c) genEventId n1 n2 n3 genNow = (none, { agg with company := { agg.company with company_name := n, country_id := c, updated_at := some n2 }, events := agg.events ++ [CompanyUpdated_init agg.company.company_id n c (some n3) genEventId genNow] }) := by
              simp [CompanyAggregate.update, Company.update_name, Company.update_country, hnc, hnameok, hlenok, hcc, hc0]
            rw [heq]
            exact ⟨rfl, _, _, _, _, rfl⟩

/-- C4 witness: on a concrete aggregate, updating with the current values
returns it unchanged with no event, and updating to a changed valid name
appends exactly one `CompanyUpdated` event. -/
theorem update_unchanged_none_changed_one_event_witness :
    (CompanyAggregate.update ⟨⟨some "c1", "Acme", "co1", 10, none⟩, [], [], []⟩
        (some "Acme") (some "co1") "evid" 1 2 3 4
      = (none, ⟨⟨some "c1", "Acme", "co1", 10, none⟩, [], [], []⟩))
    ∧ ((CompanyAggregate.update ⟨⟨some "c1", "Acme", "co1", 10, none⟩, [], [], []⟩
          (some "NewName") none "evid" 1 2 3 4).1 = none
      ∧ ∃ b cidOpt nm ctry,
          (CompanyAggregate.update ⟨⟨some "c1", "Acme", "co1", 10, none⟩, [], [], []⟩
            (some "NewName") none "evid" 1 2 3 4).2.events
            = [DomainEvent.updated b cidOpt nm ctry]) :=
  ⟨(update_unchanged_none_changed_one_event
      ⟨⟨some "c1", "Acme", "co1", 10, none⟩, [], [], []⟩ (some "Acme")
      (some "co1") "evid" 1 2 3 4).1 (Or.inr rfl) (Or.inr rfl),
    (update_unchanged_none_changed_one_event
      ⟨⟨some "c1", "Acme", "co1", 10, none⟩, [], [], []⟩ (some "NewName")
      none "evid" 1 2 3 4).2
      (fun n hn _ => by
        injection hn with h
        subst h
        exact ⟨by decide, by decide, by decide⟩)
      (fun c hc => nomatch hc)
      (Or.inl ⟨"NewName", rfl, by decide⟩)⟩

/-- C1: refuted on the code.  On the update path, `save` returns a fresh
aggregate rebuilt by `_model_to_aggregate` with an empty event list, and the
use case publishes `saved_company.events` — so a successful update that
changed the name hands zero events to the bus while the aggregate that
accumulated the `CompanyUpdated` event still holds it (uncleared) when the
use case returns.  On the create path the publish block is commented out in
the source, so nothing is published there either.  Both evaluated at
concrete inputs. -/
theorem use_cases_publish_nothing_and_do_not_drain :
    ((UpdateCompanyUseCase_execute [⟨"c1", "Acme", "co1", 10, none⟩] "c1"
        ⟨some "NewName", none, none, none⟩ "evid" 1 2 3 4 5).result.isOk = true
      ∧ (UpdateCompanyUseCase_execute [⟨"c1", "Acme", "co1", 10, none⟩] "c1"
        ⟨some "NewName", none, none, none⟩ "evid" 1 2 3 4 5).eventsPublishedToBus
          = []
      ∧ (UpdateCompanyUseCase_execute [⟨"c1", "Acme", "co1", 10, none⟩] "c1"
        ⟨some "NewName", none, none, none⟩ "evid" 1 2 3 4 5).localAggregateEvents.length
          = 1)
    ∧ ((CreateCompanyUseCase_execute [] ⟨"Acme", "co1", none, none⟩ "c9" "evid"
        7 8).result.isOk = true
      ∧ (CreateCompanyUseCase_execute [] ⟨"Acme", "co1", none, none⟩ "c9"
        "evid" 7 8).eventsPublishedToBus = []
      ∧ (CreateCompanyUseCase_execute [] ⟨"Acme", "co1", none, none⟩ "c9"
        "evid" 7 8).localAggregateEvents.length = 1) := by
  exact ⟨⟨by decide, by decide, by decide⟩, ⟨by decide, by decide, by decide⟩⟩
